import Mathlib

/-!
Verification of the Virtual-Shield text-authenticity pipeline.

This file shallowly embeds the parts of the repository that the claims
concern:

* `src/services/text_detector.py` — `TextDetectorService`: artifact loading
  (`_load_model`), feature alignment (`_extract_features`, line 99:
  `df_numeric.reindex(columns=self.feature_columns).fillna(0)`), and
  `detect_text` (validation gate, prediction, classification, confidence
  banding, rounding).
* `src/train_text_detector.py` — `extract_features` (column pruning via
  `dropna(thresh=int(0.5*len(df)), axis=1)`, lines 169–173) and
  `prepare_training_data` (StandardScaler fit on the train split only,
  lines 215–219; NaN-row masking, lines 226–237).
* `src/services/text_extractor.py` — `validate_text` (lines 96–110).

Python floats are modelled as `PyFloat`: exact rationals plus the non-finite
values NaN and ±∞.  sklearn's `StandardScaler` validates its input through
`check_array` with `force_all_finite='allow-nan'`: NaN passes through, but
any ±∞ raises `ValueError` in both `fit` and `transform`; the embedding
reproduces this with checked wrappers (`normalizeSplitsChecked`,
`transformRowChecked`) that abort before the unchecked kernels run, exactly
as the exception aborts the Python call.  Consequently a value that has
passed the scaler is, in this exact-rational model, either finite or NaN —
which `SFloat` encodes: its finite case keeps the centred numerator
together with the per-column variance (the real value is `num / sqrt var`,
with sklearn's zero-variance fallback `scale = 1`), keeping every operation
the code performs on scaled values exact and executable.
External library calls (textdescriptives extraction, the Keras forward
pass) are modelled as oracle parameters: arbitrary total functions supplied
to the embedded service, since their internals are outside this repository.
-/

/-- A Python float value: an exact rational, NaN, or a signed infinity. -/
inductive PyFloat where
  | finite (q : ℚ)
  | nan
  | inf
  | ninf
deriving DecidableEq

def PyFloat.isNaN : PyFloat → Bool
  | PyFloat.nan => true
  | _ => false

def PyFloat.isFinite : PyFloat → Bool
  | PyFloat.finite _ => true
  | _ => false

def PyFloat.toRat : PyFloat → Option ℚ
  | PyFloat.finite q => some q
  | _ => none

/-- A standardized feature value.  `finite num var` denotes the real number
`num / s` where `s = 1` when `var = 0` (sklearn's `_handle_zeros_in_scale`)
and `s = sqrt var` otherwise; keeping the pair exact avoids irrational
square roots.  The scaler's input validation rejects ±∞ before any
transform runs, so in this exact-rational model a scaled value is either
finite or NaN — infinities cannot arise downstream of the scaler. -/
inductive SFloat where
  | finite (num : ℚ) (var : ℚ)
  | nan
deriving DecidableEq

def SFloat.isNaN : SFloat → Bool
  | SFloat.nan => true
  | _ => false

def SFloat.isFiniteVal : SFloat → Bool
  | SFloat.finite _ _ => true
  | _ => false

/-! ### Feature alignment (text_detector.py, `_extract_features`) -/

/-- Column lookup in the one-row feature frame produced by
`td.extract_metrics` (columns are an association list; pandas columns are
unique, lookup takes the first match). -/
def lookupFeature (extracted : List (String × PyFloat)) (name : String) :
    Option PyFloat :=
  (extracted.find? (fun p => p.1 == name)).map Prod.snd

/-- Embeds text_detector.py line 99:
`df_numeric.reindex(columns=self.feature_columns).fillna(0)`.
`reindex` keeps exactly the manifest columns in manifest order, inserting
NaN for absent ones; `fillna(0)` then replaces every NaN (inserted or
extracted) by 0.  Infinities are not NaN and pass through untouched. -/
def reindexFill (manifest : List String)
    (extracted : List (String × PyFloat)) : List PyFloat :=
  manifest.map (fun name =>
    match lookupFeature extracted name with
    | none => PyFloat.finite 0
    | some PyFloat.nan => PyFloat.finite 0
    | some v => v)

/-! ### StandardScaler (train_text_detector.py lines 215–219) -/

/-- Fitted per-column statistics: `(mean, variance)` per feature, in manifest
order.  sklearn's `scale_` is `sqrt` of the variance (zeros replaced by 1),
so the persisted `(mean, scale)` state is a function of this pair. -/
def ScalerState := List (PyFloat × PyFloat)

instance : DecidableEq ScalerState := by
  unfold ScalerState
  infer_instance

/-- NaN-ignoring column mean, as sklearn's NaN-aware `StandardScaler` fit
computes it: NaN entries are skipped and an empty (all-NaN) column gives
NaN.  `fit` is only ever reached through the `check_array` validation that
rejects ±∞ (see `normalizeSplitsChecked`), so every non-NaN entry seen
here is finite. -/
def nanmean (l : List PyFloat) : PyFloat :=
  let vals := l.filter (fun v => !v.isNaN)
  if vals.length = 0 then PyFloat.nan
  else PyFloat.finite ((vals.filterMap PyFloat.toRat).sum / (vals.length : ℚ))

/-- NaN-ignoring population variance of a column (ddof = 0, as sklearn
uses); an all-NaN column gives NaN.  As with `nanmean`, the input has
already passed the no-∞ validation. -/
def nanvar (l : List PyFloat) : PyFloat :=
  let vals := l.filter (fun v => !v.isNaN)
  if vals.length = 0 then PyFloat.nan
  else
    let qs := vals.filterMap PyFloat.toRat
    let m := qs.sum / (qs.length : ℚ)
    PyFloat.finite ((qs.map (fun q => (q - m) ^ 2)).sum / (qs.length : ℚ))

/-- The `j`-th column of a row-major matrix. -/
def colEntries (X : List (List PyFloat)) (j : ℕ) : List PyFloat :=
  X.filterMap (fun r => r[j]?)

/-- Embeds `StandardScaler().fit` on a feature matrix (train split only):
per-column NaN-aware mean and variance. -/
def fitScaler (X : List (List PyFloat)) : ScalerState :=
  let ncols := (X.headD []).length
  (List.range ncols).map (fun j => (nanmean (colEntries X j), nanvar (colEntries X j)))

/-- One entry of `StandardScaler.transform`: `(x - mean) / scale`, for
input that has already passed the `check_array` validation (callers reach
this only through `normalizeSplitsChecked` / `transformRowChecked`, which
raise on ±∞ first, so the ±∞ input patterns here are dead code and fall
into the NaN catch-all).  With finite column statistics a finite value is
centred and a NaN stays NaN; an all-NaN column has NaN mean and variance,
hence NaN scale, making every transformed entry NaN. -/
def transformEntry : PyFloat × PyFloat → PyFloat → SFloat
  | (PyFloat.finite m, PyFloat.finite v), PyFloat.finite q => SFloat.finite (q - m) v
  | _, _ => SFloat.nan

/-- `StandardScaler.transform` on a single row. -/
def transformRow (stats : ScalerState) (row : List PyFloat) : List SFloat :=
  List.zipWith transformEntry stats row

/-- `StandardScaler.transform` on a matrix. -/
def transformM (stats : ScalerState) (X : List (List PyFloat)) :
    List (List SFloat) :=
  X.map (transformRow stats)

/-- Does a raw feature row contain a ±∞ entry?  This is the condition on
which sklearn's `check_array` (with `force_all_finite='allow-nan'`, as
`StandardScaler` uses) raises `ValueError` — NaN is allowed through. -/
def rowHasInfinity (row : List PyFloat) : Bool :=
  row.any (fun v => (v == PyFloat.inf) || (v == PyFloat.ninf))

/-- Does a raw feature matrix contain a ±∞ entry anywhere? -/
def hasInfinity (X : List (List PyFloat)) : Bool :=
  X.any rowHasInfinity

/-- The `ValueError` message sklearn raises on infinite input. -/
def SCALER_INF_ERROR : String :=
  "Input contains infinity or a value too large for dtype float64."

/-- The result of the normalization stage of `prepare_training_data`
(train_text_detector.py lines 215–219). -/
structure ScaledSplits where
  scaler : ScalerState
  train : List (List SFloat)
  val : List (List SFloat)
  test : List (List SFloat)

/-- Embeds the computation of train_text_detector.py lines 215–219:
`scaler = StandardScaler(); X_train_scaled = scaler.fit_transform(X_train);
X_val_scaled = scaler.transform(X_val); X_test_scaled = scaler.transform(X_test)`.
This is the post-validation core; `normalizeSplitsChecked` below adds the
input validation each of these sklearn calls performs first. -/
def normalizeSplits (Xtrain Xval Xtest : List (List PyFloat)) : ScaledSplits :=
  let scaler := fitScaler Xtrain
  { scaler := scaler
    train := transformM scaler Xtrain
    val := transformM scaler Xval
    test := transformM scaler Xtest }

/-- Lines 215–219 with sklearn's input validation: `fit_transform(X_train)`
raises on ±∞ in the train split, then `transform(X_val)` and
`transform(X_test)` raise on ±∞ in theirs, in that order; the first raise
aborts the run (train_text_detector.py has no handler between these calls
and the process-level failure).  NaN passes validation untouched. -/
def normalizeSplitsChecked (Xtrain Xval Xtest : List (List PyFloat)) :
    Except String ScaledSplits :=
  if hasInfinity Xtrain then Except.error SCALER_INF_ERROR
  else if hasInfinity Xval then Except.error SCALER_INF_ERROR
  else if hasInfinity Xtest then Except.error SCALER_INF_ERROR
  else Except.ok (normalizeSplits Xtrain Xval Xtest)

/-! ### NaN-row masking (train_text_detector.py lines 226–237) -/

def rowHasNaN (row : List SFloat) : Bool := row.any SFloat.isNaN

/-- Embeds the per-split masking of lines 226–237:
`mask = ~np.isnan(X_scaled).any(axis=(1, 2)); X_scaled = X_scaled[mask];
y = y.iloc[mask]...` — a row is kept exactly when none of its entries is
NaN (`np.isnan` is false on ±∞). -/
def dropNaNRows (X : List (List SFloat)) (y : List ℚ) :
    List (List SFloat) × List ℚ :=
  let pairs := X.zip y
  ((pairs.filter (fun p => !rowHasNaN p.1)).map Prod.fst,
   (pairs.filter (fun p => !rowHasNaN p.1)).map Prod.snd)

/-- The data `prepare_training_data` passes onward after normalization and
row pruning (lines 215–237): the fitted scaler and the three pruned,
label-aligned splits. -/
structure PrunedSplits where
  scaler : ScalerState
  train : List (List SFloat)
  y_train : List ℚ
  val : List (List SFloat)
  y_val : List ℚ
  test : List (List SFloat)
  y_test : List ℚ

/-- Embeds train_text_detector.py lines 215–237 end to end: normalize the
three splits (with sklearn's validation, which aborts the run on any ±∞
raw feature), then mask out the NaN rows of each split together with its
labels.  Only a run in which every scaler call accepted its input passes
splits onward. -/
def prepareNormalizeAndPrune (Xtrain : List (List PyFloat)) (ytrain : List ℚ)
    (Xval : List (List PyFloat)) (yval : List ℚ)
    (Xtest : List (List PyFloat)) (ytest : List ℚ) :
    Except String PrunedSplits :=
  match normalizeSplitsChecked Xtrain Xval Xtest with
  | Except.error e => Except.error e
  | Except.ok s =>
    let tr := dropNaNRows s.train ytrain
    let v := dropNaNRows s.val yval
    let te := dropNaNRows s.test ytest
    Except.ok { scaler := s.scaler, train := tr.1, y_train := tr.2,
                val := v.1, y_val := v.2, test := te.1, y_test := te.2 }

/-- All feature rows a preparation run passes onward: none when the run
aborted, otherwise the rows of the three pruned splits. -/
def prunedRows : Except String PrunedSplits → List (List SFloat)
  | Except.error _ => []
  | Except.ok out => out.train ++ out.val ++ out.test

/-- Did a fallible computation abort with an error? -/
def exceptAborted {α : Type} : Except String α → Bool
  | Except.error _ => true
  | Except.ok _ => false

/-! ### Column pruning (train_text_detector.py lines 169–173) -/

/-- Number of non-NaN entries in column `j` (pandas `count` used by
`dropna(thresh=...)`; ±∞ counts as present). -/
def nonNACount (rows : List (List PyFloat)) (j : ℕ) : ℕ :=
  ((rows.filterMap (fun r => r[j]?)).filter (fun v => !v.isNaN)).length

/-- Embeds lines 171–172: `threshold = 0.5;
df_features = df_features.dropna(thresh=int(threshold * len(df_features)), axis=1)`.
`int(0.5 * n)` truncates to `⌊n / 2⌋`; pandas keeps a column iff its
non-NA count is at least the thresh. -/
def dropSparseColumns (names : List String) (rows : List (List PyFloat)) :
    List String × List (List PyFloat) :=
  let thresh := rows.length / 2
  let kept := (List.range names.length).filter
    (fun j => decide (thresh ≤ nonNACount rows j))
  (kept.filterMap (fun j => names[j]?),
   rows.map (fun r => kept.filterMap (fun j => r[j]?)))

/-! ### Text validation (text_extractor.py lines 96–110, text_detector.py 126–131) -/

/-- Python `str.strip()` whitespace test (ASCII whitespace characters). -/
def isPySpace (c : Char) : Bool :=
  (c == ' ') || (c == '\t') || (c == '\n') || (c == '\r') ||
  (c == '\x0b') || (c == '\x0c')

/-- Python `str.strip()`: remove leading and trailing whitespace. -/
def stripChars (l : List Char) : List Char :=
  ((l.dropWhile isPySpace).reverse.dropWhile isPySpace).reverse

/-- `len(text.strip())` (Python `len` counts code points). -/
def strippedLen (text : String) : ℕ := (stripChars text.data).length

/-- Embeds `TextExtractor.validate_text` (text_extractor.py lines 96–110):
`if not text or len(text.strip()) < min_length: return False; return True`. -/
def validate_text (text : String) (min_length : ℕ) : Bool :=
  if (text == "") || decide (strippedLen text < min_length) then false
  else true

/-- The validator's default minimum length (text_extractor.py line 97). -/
def validate_text_default (text : String) : Bool := validate_text text 10

/-! ### Rounding (Python `round(x, 4)`) -/

/-- Round half to even at integer precision (Python's `round` tie rule). -/
def rhe (x : ℚ) : ℤ :=
  let f := ⌊x⌋
  if x - f < 1/2 then f
  else if 1/2 < x - f then f + 1
  else if f % 2 = 0 then f else f + 1

/-- Python `round(x, 4)` on the exact-rational model of floats. -/
def roundTo4 (x : ℚ) : ℚ := ((rhe (x * 10000) : ℤ) : ℚ) / 10000

/-! ### The inference service (text_detector.py) -/

/-- In-memory state of `TextDetectorService`.  The loaded Keras model is an
oracle from a scaled feature row to the sigmoid output probability; the
spaCy pipeline's internals are irrelevant to the claims and recorded only
as presence. -/
structure TextDetectorService where
  model : Option (List SFloat → ℚ)
  scaler : Option ScalerState
  feature_columns : Option (List String)
  nlp : Option Unit
  is_ready : Bool

/-- Embeds `TextDetectorService._load_model` (lines 41–80): if any of the
three artifact files is missing, return with everything unloaded and
`is_ready = False`; otherwise load model, scaler, columns and the spaCy
pipeline in order, re-raising the first failure (`raise` on line 80, so a
failed load propagates as an exception and no ready service exists);
`is_ready = True` only after all four loads succeed. -/
def loadModel (model_exists scaler_exists columns_exists : Bool)
    (loadM : Except String (List SFloat → ℚ))
    (loadS : Except String ScalerState)
    (loadC : Except String (List String))
    (loadN : Except String Unit) :
    Except String TextDetectorService :=
  if (model_exists && scaler_exists && columns_exists) = false then
    Except.ok { model := none, scaler := none, feature_columns := none,
                nlp := none, is_ready := false }
  else
    match loadM with
    | Except.error e => Except.error e
    | Except.ok m =>
      match loadS with
      | Except.error e => Except.error e
      | Except.ok sc =>
        match loadC with
        | Except.error e => Except.error e
        | Except.ok cols =>
          match loadN with
          | Except.error e => Except.error e
          | Except.ok _ =>
            Except.ok { model := some m, scaler := some sc,
                        feature_columns := some cols, nlp := some (),
                        is_ready := true }

/-- The success dictionary returned by `detect_text` (lines 155–164). -/
structure SuccessResult where
  classification : String
  ai_probability : ℚ
  human_probability : ℚ
  confidence : String
  confidence_score : ℚ
  text_length : ℕ
  word_count : ℕ
deriving DecidableEq

/-- A `detect_text` return value: either an error dictionary
`{'error': err, 'message': msg}` or the success dictionary. -/
inductive DetectResult where
  | failure (err msg : String)
  | success (r : SuccessResult)
deriving DecidableEq

/-- `len(text.split())`: number of maximal runs of non-whitespace. -/
def countWordsAux : List Char → Bool → ℕ
  | [], _ => 0
  | c :: rest, inWord =>
    if isPySpace c then countWordsAux rest false
    else (if inWord then 0 else 1) + countWordsAux rest true

def wordCount (text : String) : ℕ := countWordsAux text.data false

/-- Embeds text_detector.py lines 139–164, from the raw sigmoid output to
the success dictionary: `ai_probability = float(prediction);
human_probability = 1.0 - ai_probability; is_ai = ai_probability > 0.5;
confidence = max(ai_probability, human_probability)` with banding
`>= 0.9 → high, >= 0.7 → medium, else low`, and `round(·, 4)` applied to
the three reported numeric scores. -/
def classifyProbability (prediction : ℚ) (text : String) : SuccessResult :=
  let ai_probability := prediction
  let human_probability := 1 - ai_probability
  let confidence := max ai_probability human_probability
  { classification :=
      if ai_probability > 1/2 then "AI-Generated" else "Human-Written"
    ai_probability := roundTo4 ai_probability
    human_probability := roundTo4 human_probability
    confidence :=
      if confidence ≥ 9/10 then "high"
      else if confidence ≥ 7/10 then "medium"
      else "low"
    confidence_score := roundTo4 confidence
    text_length := text.length
    word_count := wordCount text }

/-- `scaler.transform` on the single aligned row at inference
(text_detector.py line 102), with sklearn's input validation: a ±∞ entry
in the aligned vector (possible, since `fillna(0)` does not touch
infinities) raises `ValueError`, which `detect_text`'s generic `except`
handler turns into a `'Detection failed'` error dictionary. -/
def transformRowChecked (stats : ScalerState) (row : List PyFloat) :
    Except String (List SFloat) :=
  if rowHasInfinity row then Except.error SCALER_INF_ERROR
  else Except.ok (transformRow stats row)

/-- Embeds `TextDetectorService.detect_text` (lines 109–171), threading the
service state explicitly to expose that no branch mutates it.  `extract` is
the `td.extract_metrics` oracle (its numeric columns, after the `text`
column is dropped on line 96).  A `ValueError` from the scaler's input
validation, like any exception after the gate, is caught by the generic
`except` handler (lines 166–171) and returned as `'Detection failed'`; the
final fallback mirrors the same handler for the `AttributeError` a ready
service with a missing artifact would raise. -/
def detect_text (extract : String → List (String × PyFloat))
    (s : TextDetectorService) (text : String) :
    DetectResult × TextDetectorService :=
  if s.is_ready = false then
    (DetectResult.failure "Model not loaded"
      "Please train the model first using train_text_detector.py", s)
  else if (text == "") || decide (strippedLen text < 10) then
    (DetectResult.failure "Invalid input"
      "Text must be at least 10 characters long", s)
  else
    match s.feature_columns, s.scaler, s.model with
    | some cols, some scaler, some model =>
      match transformRowChecked scaler (reindexFill cols (extract text)) with
      | Except.error e => (DetectResult.failure "Detection failed" e, s)
      | Except.ok scaled =>
        (DetectResult.success (classifyProbability (model scaled) text), s)
    | _, _, _ =>
      (DetectResult.failure "Detection failed" "missing artifact", s)

/-! ## Claims -/

/-- C5: the normalizer's fitted per-feature mean and scale are a function of
the training partition only — for identical train splits and arbitrary
different validation/test splits, `prepare_training_data`'s normalization
stage produces bit-identical fitted scaler state (`scaler.fit_transform`
sees only `X_train`; `transform` on the other splits reads the state
without updating it). -/
theorem c5_no_leakage (Xtrain Xval Xtest Xval2 Xtest2 : List (List PyFloat)) :
    (normalizeSplits Xtrain Xval Xtest).scaler =
      (normalizeSplits Xtrain Xval2 Xtest2).scaler ∧
    (normalizeSplits Xtrain Xval Xtest).scaler = fitScaler Xtrain :=
  ⟨rfl, rfl⟩

/-- C9: `detect_text` is frame-preserving — the service state (classifier
oracle, scaler state, feature-column manifest, and all other fields) is
returned unchanged on every path, success or error. -/
theorem c9_detect_frame (extract : String → List (String × PyFloat))
    (s : TextDetectorService) (text : String) :
    (detect_text extract s text).2 = s ∧
    ((detect_text extract s text).2).model = s.model ∧
    ((detect_text extract s text).2).scaler = s.scaler ∧
    ((detect_text extract s text).2).feature_columns = s.feature_columns := by
  have h2 : (detect_text extract s text).2 = s := by
    unfold detect_text
    split
    · rfl
    · split
      · rfl
      · split
        · split <;> rfl
        · rfl
  exact ⟨h2, by rw [h2], by rw [h2], by rw [h2]⟩

/-- C3: for every successful detection with raw predicted probability `p`,
the confidence score is `max p (1 - p)` (reported after the 4-decimal
rounding the code applies to every output score), the band is `high` for
score ≥ 0.9, `medium` for score ≥ 0.7, else `low`; in particular 0.95 maps
to `high`, 0.75 to `medium` and 0.55 to `low`. -/
theorem c3_confidence_banding (p : ℚ) (text : String) :
    (classifyProbability p text).confidence_score = roundTo4 (max p (1 - p)) ∧
    (classifyProbability p text).confidence =
      (if max p (1 - p) ≥ 9/10 then "high"
       else if max p (1 - p) ≥ 7/10 then "medium"
       else "low") ∧
    (classifyProbability (95/100) text).confidence = "high" ∧
    (classifyProbability (75/100) text).confidence = "medium" ∧
    (classifyProbability (55/100) text).confidence = "low" := by
  refine ⟨rfl, rfl, ?_, ?_, ?_⟩ <;> norm_num [classifyProbability]

/-- C4 counterexample: at predicted probability exactly 0.5 the code's
strict comparison `ai_probability > 0.5` (text_detector.py line 144) is
false, so the text is classified `Human-Written`, not `AI-Generated` as the
claim states. -/
theorem c4_counterexample :
    (classifyProbability (1/2) "0123456789").classification = "Human-Written" ∧
    (classifyProbability (1/2) "0123456789").classification ≠ "AI-Generated" := by
  have h : (classifyProbability (1/2) "0123456789").classification =
      "Human-Written" := by
    norm_num [classifyProbability]
  exact ⟨h, by rw [h]; decide⟩

/-- C4 (amended): when the predicted AI probability is exactly 0.5, the
binary label is decided by the strict `> 0.5` comparison, so the text is
classified `Human-Written`, with confidence band `low` and confidence
score 0.5. -/
theorem c4_half_probability (text : String) :
    (classifyProbability (1/2) text).classification = "Human-Written" ∧
    (classifyProbability (1/2) text).confidence = "low" ∧
    (classifyProbability (1/2) text).confidence_score = 1/2 := by
  refine ⟨?_, ?_, ?_⟩ <;> norm_num [classifyProbability, roundTo4, rhe]

/-- C7: the code keeps a feature column whose missing-value rate is 2/3
(above the 50% documented threshold): with 3 rows,
`dropna(thresh=int(0.5*3)=1, axis=1)` keeps any column having at least one
present value, contradicting the code's own comment
"drop columns with >50% missing" (train_text_detector.py line 169). -/
theorem c7_sparse_column_kept :
    (dropSparseColumns ["f"]
        [[PyFloat.nan], [PyFloat.nan], [PyFloat.finite 1]]).1 = ["f"] ∧
    ((2 : ℚ) / 3 > 1 / 2) := by
  exact ⟨rfl, by norm_num⟩

/-- C2: for every text, a service whose artifacts did not all load
(`is_ready = False`) answers every `detect_text` call with the
`'Model not loaded'` error dictionary — no crash, no probability — and
readiness is established only when all three artifact files exist and all
loads at construction succeed (a missing file yields a not-ready service;
a failed load propagates the exception so no ready service is produced). -/
theorem c2_readiness_gate :
    (∀ (extract : String → List (String × PyFloat))
        (s : TextDetectorService) (text : String),
      s.is_ready = false →
        (detect_text extract s text).1 = DetectResult.failure "Model not loaded"
          "Please train the model first using train_text_detector.py") ∧
    (∀ e1 e2 e3 loadM loadS loadC loadN s,
      loadModel e1 e2 e3 loadM loadS loadC loadN = Except.ok s →
      s.is_ready = true →
        e1 = true ∧ e2 = true ∧ e3 = true ∧
        (∃ m, loadM = Except.ok m) ∧ (∃ sc, loadS = Except.ok sc) ∧
        (∃ cols, loadC = Except.ok cols)) ∧
    (∀ e1 e2 e3 loadM loadS loadC loadN,
      (e1 && e2 && e3) = false →
        ∃ s, loadModel e1 e2 e3 loadM loadS loadC loadN = Except.ok s ∧
          s.is_ready = false) := by
  refine ⟨?_, ?_, ?_⟩
  · intro extract s text h
    unfold detect_text
    rw [if_pos h]
  · intro e1 e2 e3 loadM loadS loadC loadN s hload hready
    unfold loadModel at hload
    by_cases hflags : (e1 && e2 && e3) = false
    · rw [if_pos hflags] at hload
      cases hload
      simp at hready
    · rw [if_neg hflags] at hload
      have hand : e1 = true ∧ e2 = true ∧ e3 = true := by
        constructor
        · cases e1 <;> simp_all
        constructor
        · cases e2 <;> simp_all
        · cases e3 <;> simp_all
      rcases loadM with em | m
      · cases hload
      rcases loadS with es | sc
      · cases hload
      rcases loadC with ec | cols
      · cases hload
      rcases loadN with en | u
      · cases hload
      exact ⟨hand.1, hand.2.1, hand.2.2, ⟨m, rfl⟩, ⟨sc, rfl⟩, ⟨cols, rfl⟩⟩
  · intro e1 e2 e3 loadM loadS loadC loadN hflags
    refine ⟨{ model := none, scaler := none, feature_columns := none,
              nlp := none, is_ready := false }, ?_, rfl⟩
    unfold loadModel
    rw [if_pos hflags]

/-- Witness for `c2_readiness_gate`: the not-ready service produced when
the artifact files are absent answers a concrete `detect_text` call with
the `'Model not loaded'` error. -/
theorem c2_readiness_gate_witness :
    (detect_text (fun _ => [])
        { model := none, scaler := none, feature_columns := none,
          nlp := none, is_ready := false }
        "a sufficiently long input text").1 =
      DetectResult.failure "Model not loaded"
        "Please train the model first using train_text_detector.py" ∧
    (∃ s, loadModel false true true (Except.ok (fun _ => (1:ℚ)/2))
        (Except.ok []) (Except.ok []) (Except.ok ()) = Except.ok s ∧
      s.is_ready = false) :=
  ⟨c2_readiness_gate.1 (fun _ => [])
      { model := none, scaler := none, feature_columns := none,
        nlp := none, is_ready := false }
      "a sufficiently long input text" rfl,
   c2_readiness_gate.2.2 false true true (Except.ok (fun _ => (1:ℚ)/2))
      (Except.ok []) (Except.ok []) (Except.ok ()) rfl⟩

/-- A concrete ready service used to witness claims about the post-load
behaviour of `detect_text`. -/
def readyService : TextDetectorService :=
  { model := some (fun _ => 1/2), scaler := some [], feature_columns := some [],
    nlp := some (), is_ready := true }

/-- C8: on a ready service, the inference gate of `detect_text`
(text_detector.py line 127: `if not text or len(text.strip()) < 10`)
rejects with the `'Invalid input'` validation error exactly the texts whose
trimmed length is below 10 — the same texts on which the companion
validator `TextExtractor.validate_text` with its default minimum length 10
returns `False` — and on those texts the result is the same for every
extraction oracle, i.e. the rejection happens before feature extraction. -/
theorem c8_min_length_gate (s : TextDetectorService)
    (extract : String → List (String × PyFloat)) (text : String)
    (h : s.is_ready = true) :
    (validate_text_default text = false ↔ strippedLen text < 10) ∧
    ((detect_text extract s text).1 =
        DetectResult.failure "Invalid input"
          "Text must be at least 10 characters long"
      ↔ validate_text_default text = false) ∧
    (validate_text_default text = false →
      ∀ extract2, (detect_text extract s text).1 =
        (detect_text extract2 s text).1) := by
  have hval : validate_text_default text = false ↔ strippedLen text < 10 := by
    unfold validate_text_default validate_text
    by_cases hlt : strippedLen text < 10
    · simp [hlt]
    · have hne : (text == "") = false := by
        cases hbe : (text == "") with
        | false => rfl
        | true =>
          exfalso
          have : text = "" := by simpa using hbe
          subst this
          exact hlt (by norm_num [strippedLen, stripChars])
      simp [hlt, hne]
  have hgate : ((text == "") || decide (strippedLen text < 10)) = true ↔
      validate_text_default text = false := by
    unfold validate_text_default validate_text
    constructor
    · intro hg
      rw [if_pos hg]
    · intro hfalse
      by_cases hg : ((text == "") || decide (strippedLen text < 10)) = true
      · exact hg
      · rw [if_neg hg] at hfalse
        cases hfalse
  refine ⟨hval, ?_, ?_⟩
  · unfold detect_text
    rw [if_neg (by simp [h])]
    by_cases hg : ((text == "") || decide (strippedLen text < 10)) = true
    · rw [if_pos hg]
      simpa using hgate.mp hg
    · rw [if_neg hg]
      constructor
      · intro hres
        exfalso
        rcases hfc : s.feature_columns with _ | cols
        · simp [hfc] at hres
        rcases hsc : s.scaler with _ | sc
        · simp [hfc, hsc] at hres
        rcases hm : s.model with _ | m
        · simp [hfc, hsc, hm] at hres
        rcases htr : transformRowChecked sc (reindexFill cols (extract text))
            with e | scaled <;>
          simp [hfc, hsc, hm, htr] at hres
      · intro hfalse
        exfalso
        rw [← hgate] at hfalse
        exact hg hfalse
  · intro hfalse extract2
    have hg : ((text == "") || decide (strippedLen text < 10)) = true :=
      hgate.mpr hfalse
    simp [detect_text, h, hg]

/-- Witness for `c8_min_length_gate`: the ready service rejects the
9-character text `"too short"` with the `'Invalid input'` error. -/
theorem c8_min_length_gate_witness :
    (detect_text (fun _ => []) readyService "too short").1 =
      DetectResult.failure "Invalid input"
        "Text must be at least 10 characters long" :=
  ((c8_min_length_gate readyService (fun _ => []) "too short" rfl).2.1).mpr rfl

/-- C1 counterexample: `fillna(0)` only replaces NaN, so an extraction that
assigns `+inf` to a manifest column leaves a non-finite value in the
aligned vector — the claim's "all values are finite" fails. -/
theorem c1_counterexample :
    (reindexFill ["a"] [("a", PyFloat.inf)]).all PyFloat.isFinite = false :=
  rfl

/-- C1 (amended): the aligned vector always has the manifest's length, each
manifest name absent from the fresh extraction yields 0.0 at its position
(not an error), extracted columns outside the manifest never influence the
result, and — provided the extraction assigns no ±∞ to any column (NaN is
filled with 0.0) — every value is finite. -/
theorem c1_reindex_manifest (manifest : List String)
    (extracted : List (String × PyFloat)) :
    (reindexFill manifest extracted).length = manifest.length ∧
    (∀ (i : ℕ) (name : String), manifest[i]? = some name →
      lookupFeature extracted name = none →
      (reindexFill manifest extracted)[i]? = some (PyFloat.finite 0)) ∧
    reindexFill manifest (extracted.filter (fun p => decide (p.1 ∈ manifest))) =
      reindexFill manifest extracted ∧
    ((∀ p ∈ extracted, p.2 ≠ PyFloat.inf ∧ p.2 ≠ PyFloat.ninf) →
      ∀ v ∈ reindexFill manifest extracted, v.isFinite = true) := by
  refine ⟨List.length_map _ _, ?_, ?_, ?_⟩
  · intro i name hname hlook
    unfold reindexFill
    rw [List.getElem?_map, hname]
    simp [hlook]
  · unfold reindexFill
    apply List.map_congr_left
    intro name hname
    have hlook : lookupFeature (extracted.filter (fun p => decide (p.1 ∈ manifest))) name =
        lookupFeature extracted name := by
      unfold lookupFeature
      congr 1
      induction extracted with
      | nil => rfl
      | cons hd tl ih =>
        by_cases heq : hd.1 = name
        · have hmem : decide (hd.1 ∈ manifest) = true := by
            rw [heq]; exact decide_eq_true hname
          have hfc : (hd :: tl).filter (fun p => decide (p.1 ∈ manifest)) =
              hd :: tl.filter (fun p => decide (p.1 ∈ manifest)) :=
            List.filter_cons_of_pos hmem
          have hbeq : (hd.1 == name) = true := by
            rw [heq]; exact beq_self_eq_true name
          have hfp : List.find? (fun p => p.1 == name)
              (hd :: tl.filter (fun p => decide (p.1 ∈ manifest))) = some hd :=
            List.find?_cons_of_pos _ hbeq
          have hfp2 : List.find? (fun p => p.1 == name) (hd :: tl) = some hd :=
            List.find?_cons_of_pos _ hbeq
          rw [hfc, hfp, hfp2]
        · have hbeqf : (hd.1 == name) = false := beq_eq_false_iff_ne.mpr heq
          have hbne : ¬ ((hd.1 == name) = true) := by simp [hbeqf]
          by_cases hmem : decide (hd.1 ∈ manifest) = true
          · have hfc : (hd :: tl).filter (fun p => decide (p.1 ∈ manifest)) =
                hd :: tl.filter (fun p => decide (p.1 ∈ manifest)) :=
              List.filter_cons_of_pos hmem
            have hfn : List.find? (fun p => p.1 == name)
                (hd :: tl.filter (fun p => decide (p.1 ∈ manifest))) =
                List.find? (fun p => p.1 == name)
                  (tl.filter (fun p => decide (p.1 ∈ manifest))) :=
              List.find?_cons_of_neg _ hbne
            have hfn2 : List.find? (fun p => p.1 == name) (hd :: tl) =
                List.find? (fun p => p.1 == name) tl :=
              List.find?_cons_of_neg _ hbne
            rw [hfc, hfn, hfn2]
            exact ih
          · have hfc : (hd :: tl).filter (fun p => decide (p.1 ∈ manifest)) =
                tl.filter (fun p => decide (p.1 ∈ manifest)) :=
              List.filter_cons_of_neg (by simpa using hmem)
            have hfn2 : List.find? (fun p => p.1 == name) (hd :: tl) =
                List.find? (fun p => p.1 == name) tl :=
              List.find?_cons_of_neg _ hbne
            rw [hfc, hfn2]
            exact ih
    rw [hlook]
  · intro hnoinf v hv
    unfold reindexFill at hv
    rw [List.mem_map] at hv
    obtain ⟨name, hname, hval⟩ := hv
    rcases hlook : lookupFeature extracted name with _ | w
    · rw [hlook] at hval
      simp at hval
      rw [← hval]
      rfl
    · have hwmem : w ∈ extracted.map Prod.snd := by
        unfold lookupFeature at hlook
        rcases hfind : extracted.find? (fun p => p.1 == name) with _ | q
        · rw [hfind] at hlook
          cases hlook
        · rw [hfind] at hlook
          have hq : q ∈ extracted := List.mem_of_find?_eq_some hfind
          simp at hlook
          rw [← hlook]
          exact List.mem_map_of_mem Prod.snd hq
      rw [List.mem_map] at hwmem
      obtain ⟨p, hp, hpw⟩ := hwmem
      have hni := hnoinf p hp
      rw [hlook] at hval
      cases w with
      | finite q => rw [← hval]; rfl
      | nan => rw [← hval]; rfl
      | inf => rw [hpw] at hni; exact absurd rfl hni.1
      | ninf => rw [hpw] at hni; exact absurd rfl hni.2

/-- Witness for `c1_reindex_manifest` at a concrete manifest and
extraction: length 2, the absent column `"a"` holds 0.0, and with no
infinite extracted value every aligned value is finite. -/
theorem c1_reindex_manifest_witness :
    (reindexFill ["a", "b"] [("b", PyFloat.finite 3), ("c", PyFloat.nan)]).length = 2 ∧
    (reindexFill ["a", "b"] [("b", PyFloat.finite 3), ("c", PyFloat.nan)])[0]? =
      some (PyFloat.finite 0) ∧
    (∀ v ∈ reindexFill ["a", "b"] [("b", PyFloat.finite 3), ("c", PyFloat.nan)],
      v.isFinite = true) :=
  ⟨(c1_reindex_manifest ["a", "b"] [("b", PyFloat.finite 3), ("c", PyFloat.nan)]).1,
   (c1_reindex_manifest ["a", "b"] [("b", PyFloat.finite 3), ("c", PyFloat.nan)]).2.1
     0 "a" rfl rfl,
   (c1_reindex_manifest ["a", "b"] [("b", PyFloat.finite 3), ("c", PyFloat.nan)]).2.2.2
     (by decide)⟩

/-- Every feature row surviving the NaN mask of lines 226–237 is
all-finite: the mask removes every row with a NaN entry, and a scaled value
is finite or NaN (the scaler's input validation having rejected ±∞ before
any transform ran). -/
theorem mem_dropNaNRows_all_finite (X : List (List SFloat)) (y : List ℚ)
    (row : List SFloat) (h : row ∈ (dropNaNRows X y).1) :
    row.all SFloat.isFiniteVal = true := by
  unfold dropNaNRows at h
  rw [List.mem_map] at h
  obtain ⟨p, hp, hrow⟩ := h
  rw [List.mem_filter] at hp
  have hnan : rowHasNaN p.1 = false := by simpa using hp.2
  rw [← hrow, List.all_eq_true]
  intro v hv
  unfold rowHasNaN at hnan
  have hvnan : SFloat.isNaN v = false := by
    by_contra hvn
    rw [List.any_eq_false] at hnan
    exact (hnan v hv) (by simpa using hvn)
  cases v with
  | finite n vr => rfl
  | nan => cases hvnan

/-- C6: during training-data preparation, after normalization every row
containing a non-finite feature is removed before the splits are passed
onward: ±∞ in any raw split makes the scaler's input validation abort the
whole run (nothing is passed onward), NaN rows are dropped by the
`np.isnan` mask, and hence every feature row any completed run passes
onward is entirely finite. -/
theorem c6_nonfinite_row_pruning (Xtrain : List (List PyFloat))
    (ytrain : List ℚ) (Xval : List (List PyFloat)) (yval : List ℚ)
    (Xtest : List (List PyFloat)) (ytest : List ℚ) :
    ((prunedRows
        (prepareNormalizeAndPrune Xtrain ytrain Xval yval Xtest ytest)).all
      (fun row => row.all SFloat.isFiniteVal)) = true ∧
    ((hasInfinity Xtrain || hasInfinity Xval || hasInfinity Xtest) = true →
      exceptAborted
        (prepareNormalizeAndPrune Xtrain ytrain Xval yval Xtest ytest) =
        true) := by
  constructor
  · unfold prepareNormalizeAndPrune
    rcases hn : normalizeSplitsChecked Xtrain Xval Xtest with e | sc
    · simp [prunedRows]
    · simp only [prunedRows]
      rw [List.all_eq_true]
      intro row hrow
      rw [List.mem_append, List.mem_append] at hrow
      rcases hrow with (htr | hv) | hte
      · exact mem_dropNaNRows_all_finite sc.train ytrain row htr
      · exact mem_dropNaNRows_all_finite sc.val yval row hv
      · exact mem_dropNaNRows_all_finite sc.test ytest row hte
  · intro hinf
    unfold prepareNormalizeAndPrune normalizeSplitsChecked
    by_cases h1 : hasInfinity Xtrain = true
    · simp [h1, exceptAborted]
    · by_cases h2 : hasInfinity Xval = true
      · simp [h1, h2, exceptAborted]
      · have h3 : hasInfinity Xtest = true := by
          simp [h1, h2] at hinf
          exact hinf
        simp [h1, h2, h3, exceptAborted]

/-- Witness for `c6_nonfinite_row_pruning` at concrete inputs: a run whose
validation split holds a NaN row completes with only finite rows passed
onward, and a run whose validation split holds a `+inf` feature aborts in
the scaler before any split is passed onward. -/
theorem c6_nonfinite_row_pruning_witness :
    ((prunedRows
        (prepareNormalizeAndPrune [[PyFloat.finite 0], [PyFloat.finite 2]]
          [0, 1] [[PyFloat.nan]] [0] [] [])).all
      (fun row => row.all SFloat.isFiniteVal)) = true ∧
    exceptAborted
      (prepareNormalizeAndPrune [[PyFloat.finite 0], [PyFloat.finite 2]]
        [0, 1] [[PyFloat.inf]] [0] [] []) = true :=
  ⟨(c6_nonfinite_row_pruning [[PyFloat.finite 0], [PyFloat.finite 2]]
      [0, 1] [[PyFloat.nan]] [0] [] []).1,
   (c6_nonfinite_row_pruning [[PyFloat.finite 0], [PyFloat.finite 2]]
      [0, 1] [[PyFloat.inf]] [0] [] []).2 rfl⟩

/-- Round-half-even at integer precision is complementary around any even
integer: `rhe x + rhe (k - x) = k`.  This is the tie-parity argument: the
fractional parts of `x` and `k - x` sum to an integer, and at a tie the two
floors have opposite parities when `k` is even. -/
theorem rhe_add_sub_self (x : ℚ) (k : ℤ) (hk : k % 2 = 0) :
    rhe x + rhe ((k : ℚ) - x) = k := by
  rcases eq_or_lt_of_le (Int.floor_le x) with hint | hfrac
  · -- x is an integer
    have hx : x = ((⌊x⌋ : ℤ) : ℚ) := hint.symm
    have h1 : rhe x = ⌊x⌋ := by
      unfold rhe
      rw [if_pos (by rw [← hx]; norm_num)]
    have h2 : rhe ((k : ℚ) - x) = k - ⌊x⌋ := by
      have hcast : (k : ℚ) - x = ((k - ⌊x⌋ : ℤ) : ℚ) := by
        push_cast
        rw [hint]
      unfold rhe
      rw [hcast, Int.floor_intCast, if_pos (by norm_num)]
    rw [h1, h2]; ring
  · -- x has fractional part r with 0 < r < 1
    set f := ⌊x⌋ with hf
    have hr0 : 0 < x - f := by linarith
    have hr1 : x - f < 1 := by
      have := Int.lt_floor_add_one x
      push_cast at this
      linarith
    have hfl2 : ⌊(k : ℚ) - x⌋ = k - f - 1 := by
      rw [Int.floor_eq_iff]
      push_cast
      constructor <;> linarith
    rcases lt_trichotomy (x - f) (1/2) with hlt | heq | hgt
    · have h1 : rhe x = f := by
        unfold rhe
        rw [if_pos (by exact_mod_cast hlt)]
      have h2 : rhe ((k : ℚ) - x) = k - f := by
        unfold rhe
        rw [hfl2]
        rw [if_neg (by push_cast; linarith), if_pos (by push_cast; linarith)]
        ring
      rw [h1, h2]; ring
    · have h1 : rhe x = if f % 2 = 0 then f else f + 1 := by
        unfold rhe
        rw [if_neg (by rw [← hf]; linarith), if_neg (by rw [← hf]; linarith)]
      have h2 : rhe ((k : ℚ) - x) =
          if (k - f - 1) % 2 = 0 then k - f - 1 else k - f := by
        unfold rhe
        rw [hfl2]
        have heq2 : (k : ℚ) - x - ((k - f - 1 : ℤ) : ℚ) = 1/2 := by
          push_cast; linarith
        rw [if_neg (by rw [heq2]; norm_num), if_neg (by rw [heq2]; norm_num)]
        by_cases hpar : (k - f - 1) % 2 = 0
        · rw [if_pos hpar, if_pos hpar]
        · rw [if_neg hpar, if_neg hpar]; ring
      rw [h1, h2]
      by_cases hpar : f % 2 = 0
      · rw [if_pos hpar, if_neg (by omega)]; ring
      · rw [if_neg hpar, if_pos (by omega)]; ring
    · have h1 : rhe x = f + 1 := by
        unfold rhe
        rw [if_neg (by rw [← hf]; linarith), if_pos (by rw [← hf]; exact hgt)]
      have h2 : rhe ((k : ℚ) - x) = k - f - 1 := by
        unfold rhe
        rw [hfl2, if_pos (by push_cast; linarith)]
      rw [h1, h2]; ring

/-- C10: for every raw predicted probability `p`, the reported probabilities
are the 4-decimal roundings of `p` and of its exact complement `1 - p`
(text_detector.py lines 140–141: `human_probability = 1.0 - ai_probability`),
the raw probabilities sum to 1, and — because round-half-even is
complementary around 1 — the two reported (rounded) probabilities also sum
to 1. -/
theorem c10_probability_complement (p : ℚ) (text : String) :
    (classifyProbability p text).ai_probability = roundTo4 p ∧
    (classifyProbability p text).human_probability = roundTo4 (1 - p) ∧
    p + (1 - p) = 1 ∧
    (classifyProbability p text).ai_probability +
      (classifyProbability p text).human_probability = 1 := by
  refine ⟨rfl, rfl, by ring, ?_⟩
  show roundTo4 p + roundTo4 (1 - p) = 1
  unfold roundTo4
  have hcast : (1 - p) * 10000 = ((10000 : ℤ) : ℚ) - p * 10000 := by
    push_cast; ring
  rw [hcast]
  have hsum := rhe_add_sub_self (p * 10000) 10000 (by norm_num)
  field_simp
  exact_mod_cast hsum
